import Mathlib

/-!
Verification development for the database-manager module
(`goex/exec_engine/db_manager.py`).

The module defines four adapters over native database drivers:
`SQLiteManager`, `MySQLManager`, `PostgreSQLManager` and `MongoDBManager`.
Each adapter holds a connection configuration, a native connection/cursor
handle stored in the instance attributes `conn`/`cursor` (or `conn`/`db` for
MongoDB), and a cached schema snapshot in the attribute `schema`.

The shallow embedding below renders each adapter as a state record plus
one Lean function per Python method.  Python exceptions are rendered as
`Except PyErr`; the native drivers (sqlite3, pymysql, psycopg2, pymongo)
are opaque capabilities and are rendered as records of oracles
(`SqlDriver`, `MongoDriver`) supplied as parameters, so every theorem
quantifies over the possible behaviours of the native layer.

Two facts about the Python runtime are load-bearing for the embedding and
are modelled explicitly:
* an attribute that was never assigned does not read as `None`; reading it
  raises `AttributeError` (`PyErr.attrError`).  None of the four classes
  ever assigns `self.conn = None`, so the handle attribute is either
  missing or bound to a driver connection object;
* driver connection objects define no truth-value override, so a bound
  handle is truthy even after the underlying connection has been closed.
Both facts are encoded in the `Handle` type and its truthiness.
-/

/-- Python values that appear in connection configurations: strings,
integers, and `None`. -/
inductive PyVal where
  | str (s : String)
  | int (n : Int)
  | pynone
deriving DecidableEq, Repr

/-- Python truthiness of a configuration value: the empty string, `0` and
`None` are falsy, everything else is truthy. -/
def pyTruthy : PyVal → Bool
  | PyVal.str s => !(s == "")
  | PyVal.int n => !(n == 0)
  | PyVal.pynone => false

/-- A connection configuration: a Python dict rendered as an association
list from key strings to values. -/
def Config : Type := List (String × PyVal)

/-- Dictionary lookup (`config[key]` / `config.get(key)`): the value bound
to the first occurrence of the key, if any. -/
def cfgGet : Config → String → Option PyVal
  | [], _ => Option.none
  | (k, v) :: t, key => if k == key then Option.some v else cfgGet t key

/-- Membership test (`key in config.keys()`). -/
def cfgHas (c : Config) (k : String) : Bool := (cfgGet c k).isSome

/-- Conditional lookup with default, mirroring the Python ternary
`config[k] if k in config else d`. -/
def cfgGetD (c : Config) (k : String) (d : PyVal) : PyVal := (cfgGet c k).getD d

/-- Python exceptions that escape an adapter method: `AttributeError` from
reading a never-assigned attribute, `ValueError` raised by constructor
validation, and any exception raised by the native driver. -/
inductive PyErr where
  | attrError (name : String)
  | valueError (msg : String)
  | nativeError (msg : String)
deriving DecidableEq, Repr

/-- The state of the `conn` attribute (together with its companion
`cursor`/`db` attribute, which every code path assigns at the same time):
never assigned (`unset`, reading it raises `AttributeError`), bound to a
live connection (`openH`), or bound to a connection object whose
underlying connection has been closed (`closedH`).  Driver connection
objects have no truth-value override, so both `openH` and `closedH` are
truthy in `if not self.conn:` tests; only `unset` is special, and it
raises rather than reading as falsy. -/
inductive Handle where
  | unset
  | openH
  | closedH
deriving DecidableEq, Repr

/-! ### Python string primitives

`str.split(sep)`, `str.strip()` and `str.startswith(p)` for the one-char
separator used by the SQLite executor, rendered at the character level so
that every use reduces in the kernel. -/

/-- `str.split` on a single-character separator: splits at every
occurrence, keeping empty pieces between consecutive separators. -/
def pySplitChar (sep : Char) : List Char → List (List Char)
  | [] => [[]]
  | c :: cs =>
      if c = sep then [] :: pySplitChar sep cs
      else
        match pySplitChar sep cs with
        | [] => [[c]]
        | t :: ts => (c :: t) :: ts

/-- `call.split(sep)` as a list of strings. -/
def pySplit (s : String) (sep : Char) : List String :=
  (pySplitChar sep s.toList).map (fun l => String.mk l)

/-- `s.strip()`: drop leading and trailing whitespace. -/
def pyStrip (s : String) : String :=
  String.mk (((s.toList.dropWhile Char.isWhitespace).reverse.dropWhile
    Char.isWhitespace).reverse)

/-- `s.startswith(pre)`. -/
def pyStartsWith (s pre : String) : Bool := pre.toList.isPrefixOf s.toList

/-! ### The native SQL driver as an oracle

`sqlite3`, `pymysql` and `psycopg2` are external capabilities.  A
`SqlDriver` fixes one behaviour of such a capability for one adapter
instance: whether the native `connect` call raises, what
`cursor.execute`/`cursor.fetchall` does on each statement against each
database state, what the catalog queries of `update_schema_info` return,
and whether re-closing an already-closed handle raises (driver-specific:
sqlite3 raises `ProgrammingError`, others differ). -/
structure SqlDriver (DB Schema Row : Type) where
  connectErr : Option String
  execStmt : DB → String → Except String (DB × List Row)
  schemaQuery : DB → Except String Schema
  closeClosedErr : Option String

/-- One `cursor.execute(c)` followed by the implicit availability of
`fetchall()`.  On a handle whose connection was closed the driver raises;
on a missing cursor attribute an `AttributeError` is raised (both are
plain exceptions, caught by any enclosing `try`). -/
def cursorExec {DB Schema Row : Type} (drv : SqlDriver DB Schema Row)
    (h : Handle) (db : DB) (c : String) : Except String (DB × List Row) :=
  match h with
  | Handle.unset => Except.error "AttributeError: cursor"
  | Handle.closedH => Except.error "Cannot operate on a closed database"
  | Handle.openH => drv.execStmt db c

/-- The catalog queries issued by `update_schema_info`, as run through the
cursor: they fail like any cursor operation on a closed or missing
handle. -/
def sqlSchemaRefresh {DB Schema Row : Type} (drv : SqlDriver DB Schema Row)
    (h : Handle) (db : DB) : Except String Schema :=
  match h with
  | Handle.unset => Except.error "AttributeError: cursor"
  | Handle.closedH => Except.error "Cannot operate on a closed database"
  | Handle.openH => drv.schemaQuery db

/-! ### SQLiteManager -/

/-- Instance state of a `SQLiteManager`: the validated `db_path`, the
`conn`/`cursor` attribute pair, the external database content, and the
`schema` attribute (missing until the first refresh). -/
structure SQLiteState (DB Schema : Type) where
  db_path : PyVal
  conn : Handle
  db : DB
  schema : Option Schema
deriving DecidableEq, Repr

/-- `SQLiteManager.__init__`: requires the key `path` to be present
(`any(key not in keys for key in ['path'])`), stores it, and additionally
rejects a falsy path (`if not self.db_path`).  No driver call is made:
the constructor takes no driver and leaves the handle `unset`. -/
def SQLiteManager.init {DB Schema : Type} (config : Config) (db : DB) :
    Except PyErr (SQLiteState DB Schema) :=
  if !cfgHas config "path" then
    Except.error (PyErr.valueError
      "Failed to initialize SQLite Manager due to bad configs")
  else
    let p := cfgGetD config "path" PyVal.pynone
    if !pyTruthy p then
      Except.error (PyErr.valueError
        "Failed to initialize SQLite Manager due to missing path")
    else
      Except.ok { db_path := p, conn := Handle.unset, db := db,
                  schema := Option.none }

/-- `SQLiteManager.update_schema_info`: runs the `sqlite_master` and
`PRAGMA table_info` queries through the cursor and overwrites
`self.schema`.  Errors are plain exceptions for the caller to catch. -/
def SQLiteManager.update_schema_info {DB Schema Row : Type}
    (drv : SqlDriver DB Schema Row) (s : SQLiteState DB Schema) :
    Except String (SQLiteState DB Schema) :=
  (sqlSchemaRefresh drv s.conn s.db).map
    (fun sch => { s with schema := Option.some sch })

/-- `SQLiteManager.connect`: `self.conn = sqlite3.connect(self.db_path)`,
`self.cursor = self.conn.cursor()`, `self.update_schema_info()`.  There is
no handler: a native failure propagates to the caller, and since the
assignment never ran the handle attribute is unchanged. -/
def SQLiteManager.connect {DB Schema Row : Type}
    (drv : SqlDriver DB Schema Row) (s : SQLiteState DB Schema) :
    Except PyErr (SQLiteState DB Schema) :=
  match drv.connectErr with
  | Option.some e => Except.error (PyErr.nativeError e)
  | Option.none =>
      let s1 := { s with conn := Handle.openH }
      match SQLiteManager.update_schema_info drv s1 with
      | Except.error e => Except.error (PyErr.nativeError e)
      | Except.ok s2 => Except.ok s2

/-- The list comprehension of `SQLiteManager.execute_db_call`:
`[cmd.strip() for cmd in call.split(';')
  if cmd.strip() and not cmd.strip().startswith('--')]`. -/
def sqliteCommandsList (call : String) : List String :=
  ((pySplit call ';').map pyStrip).filter
    (fun c => !(c == "") && !(pyStartsWith c "--"))

/-- The `for command in commands_list:` loop: each segment goes through
`cursor.execute` (segments recognised as `SELECT` additionally have their
rows fetched and printed, which changes nothing observable here).  The
first native error aborts the loop; earlier segments stay applied. -/
def sqliteRunCommands {DB Schema Row : Type} (drv : SqlDriver DB Schema Row)
    (h : Handle) : List String → DB → DB × Bool
  | [], db => (db, true)
  | c :: cs, db =>
      match cursorExec drv h db c with
      | Except.error _ => (db, false)
      | Except.ok (db2, _rows) => sqliteRunCommands drv h cs db2

/-- `SQLiteManager.execute_db_call`.  The guard `if not self.conn:` reads
the attribute outside the `try`: a never-assigned attribute raises
`AttributeError`, and a bound connection object is truthy even after
`close()`, so the `self.connect()` branch is unreachable.  Inside the
`try`, the filtered segments run in order, then `update_schema_info`; any
exception yields the failure status `1`, with partial effects kept. -/
def SQLiteManager.execute_db_call {DB Schema Row : Type}
    (drv : SqlDriver DB Schema Row) (s : SQLiteState DB Schema)
    (call : String) : Except PyErr (SQLiteState DB Schema × Nat) :=
  match s.conn with
  | Handle.unset => Except.error (PyErr.attrError "conn")
  | _ =>
      match sqliteRunCommands drv s.conn (sqliteCommandsList call) s.db with
      | (db2, false) => Except.ok ({ s with db := db2 }, 1)
      | (db2, true) =>
          match sqlSchemaRefresh drv s.conn db2 with
          | Except.error _ => Except.ok ({ s with db := db2 }, 1)
          | Except.ok sch =>
              Except.ok ({ s with db := db2, schema := Option.some sch }, 0)

/-- `SQLiteManager.fetch_db_call`: same guard as the executor; the call is
run as one statement through the cursor, the rows are fetched, the schema
is refreshed, and any exception inside the `try` yields `[]`. -/
def SQLiteManager.fetch_db_call {DB Schema Row : Type}
    (drv : SqlDriver DB Schema Row) (s : SQLiteState DB Schema)
    (call : String) : Except PyErr (SQLiteState DB Schema × List Row) :=
  match s.conn with
  | Handle.unset => Except.error (PyErr.attrError "conn")
  | _ =>
      match cursorExec drv s.conn s.db call with
      | Except.error _ => Except.ok (s, [])
      | Except.ok (db2, rows) =>
          match sqlSchemaRefresh drv s.conn db2 with
          | Except.error _ => Except.ok ({ s with db := db2 }, [])
          | Except.ok sch =>
              Except.ok ({ s with db := db2, schema := Option.some sch },
                rows)

/-- `SQLiteManager.close`: `if self.conn:` raises `AttributeError` on a
never-connected instance; on a bound (hence truthy) handle it runs
`self.cursor.close()` and `self.conn.close()`.  On an already-closed
handle those calls hit the closed connection again; whether that raises
is driver behaviour (`closeClosedErr`; sqlite3 raises
`ProgrammingError`).  The attribute itself is never cleared. -/
def SQLiteManager.close {DB Schema Row : Type}
    (drv : SqlDriver DB Schema Row) (s : SQLiteState DB Schema) :
    Except PyErr (SQLiteState DB Schema) :=
  match s.conn with
  | Handle.unset => Except.error (PyErr.attrError "conn")
  | Handle.openH => Except.ok { s with conn := Handle.closedH }
  | Handle.closedH =>
      match drv.closeClosedErr with
      | Option.some e => Except.error (PyErr.nativeError e)
      | Option.none => Except.ok s

/-! ### MySQLManager -/

/-- The connection configuration assembled by `MySQLManager.__init__`
(the dict also carries a constant `client_flag` entry for
multi-statement support, which has no observable role here). -/
structure MySqlCfg where
  host : PyVal
  user : PyVal
  password : PyVal
  database : PyVal
deriving DecidableEq, Repr

/-- Instance state of a `MySQLManager`. -/
structure MySQLState (DB Schema : Type) where
  connection_config : MySqlCfg
  conn : Handle
  db : DB
  schema : Option Schema
deriving DecidableEq, Repr

/-- `MySQLManager.__init__`: rejects a configuration missing any of
`host`, `user`, `password`, `database`
(`any(key not in keys for key in [...])`), then rejects one whose values
are not all truthy (`any([not ..., ...])`); otherwise stores the four
values.  No driver call is made. -/
def MySQLManager.init {DB Schema : Type} (config : Config) (db : DB) :
    Except PyErr (MySQLState DB Schema) :=
  if !cfgHas config "host" || !cfgHas config "user" ||
      !cfgHas config "password" || !cfgHas config "database" then
    Except.error (PyErr.valueError
      "Failed to initialize MySQL Manager due to bad configs")
  else
    let h := cfgGetD config "host" PyVal.pynone
    let u := cfgGetD config "user" PyVal.pynone
    let p := cfgGetD config "password" PyVal.pynone
    let d := cfgGetD config "database" PyVal.pynone
    if !pyTruthy h || !pyTruthy u || !pyTruthy p || !pyTruthy d then
      Except.error (PyErr.valueError
        "Failed to initialize MySQL Manager due to missing configs")
    else
      let cfg : MySqlCfg := { host := h, user := u, password := p,
                              database := d }
      Except.ok { connection_config := cfg, conn := Handle.unset,
                  db := db, schema := Option.none }

/-- `MySQLManager.update_schema_info` (`SHOW TABLES` + `DESCRIBE`). -/
def MySQLManager.update_schema_info {DB Schema Row : Type}
    (drv : SqlDriver DB Schema Row) (s : MySQLState DB Schema) :
    Except String (MySQLState DB Schema) :=
  (sqlSchemaRefresh drv s.conn s.db).map
    (fun sch => { s with schema := Option.some sch })

/-- `MySQLManager.connect`: `pymysql.connect(**self.connection_config)`
with no handler; a native failure propagates to the caller with the
handle attribute unchanged. -/
def MySQLManager.connect {DB Schema Row : Type}
    (drv : SqlDriver DB Schema Row) (s : MySQLState DB Schema) :
    Except PyErr (MySQLState DB Schema) :=
  match drv.connectErr with
  | Option.some e => Except.error (PyErr.nativeError e)
  | Option.none =>
      let s1 := { s with conn := Handle.openH }
      match MySQLManager.update_schema_info drv s1 with
      | Except.error e => Except.error (PyErr.nativeError e)
      | Except.ok s2 => Except.ok s2

/-- `MySQLManager.execute_db_call`: single `cursor.execute(call)` inside
the `try`, then `update_schema_info`; any exception yields status `1`.
The `if not self.conn:` guard behaves exactly as in the SQLite manager. -/
def MySQLManager.execute_db_call {DB Schema Row : Type}
    (drv : SqlDriver DB Schema Row) (s : MySQLState DB Schema)
    (call : String) : Except PyErr (MySQLState DB Schema × Nat) :=
  match s.conn with
  | Handle.unset => Except.error (PyErr.attrError "conn")
  | _ =>
      match cursorExec drv s.conn s.db call with
      | Except.error _ => Except.ok (s, 1)
      | Except.ok (db2, _rows) =>
          match sqlSchemaRefresh drv s.conn db2 with
          | Except.error _ => Except.ok ({ s with db := db2 }, 1)
          | Except.ok sch =>
              Except.ok ({ s with db := db2, schema := Option.some sch }, 0)

/-- `MySQLManager.fetch_db_call`: execute, fetch the rows, refresh the
schema; any exception inside the `try` yields `[]`. -/
def MySQLManager.fetch_db_call {DB Schema Row : Type}
    (drv : SqlDriver DB Schema Row) (s : MySQLState DB Schema)
    (call : String) : Except PyErr (MySQLState DB Schema × List Row) :=
  match s.conn with
  | Handle.unset => Except.error (PyErr.attrError "conn")
  | _ =>
      match cursorExec drv s.conn s.db call with
      | Except.error _ => Except.ok (s, [])
      | Except.ok (db2, rows) =>
          match sqlSchemaRefresh drv s.conn db2 with
          | Except.error _ => Except.ok ({ s with db := db2 }, [])
          | Except.ok sch =>
              Except.ok ({ s with db := db2, schema := Option.some sch },
                rows)

/-! ### PostgreSQLManager -/

/-- The connection configuration assembled by
`PostgreSQLManager.__init__`. -/
structure PgCfg where
  dbname : PyVal
  user : PyVal
  password : PyVal
  host : PyVal
deriving DecidableEq, Repr

/-- Instance state of a `PostgreSQLManager`. -/
structure PGState (DB Schema : Type) where
  connection_config : PgCfg
  conn : Handle
  db : DB
  schema : Option Schema
deriving DecidableEq, Repr

/-- `PostgreSQLManager.__init__`: exactly the MySQL validation (all of
`host`, `user`, `password`, `database` present and truthy, else
`ValueError`), after which the stored dict is built with ternary
fallbacks (`'postgres'`, `'postgres'`, `''`, `'127.0.0.1'`) that mirror
the source but can no longer engage.  No driver call is made. -/
def PostgreSQLManager.init {DB Schema : Type} (config : Config) (db : DB) :
    Except PyErr (PGState DB Schema) :=
  if !cfgHas config "host" || !cfgHas config "user" ||
      !cfgHas config "password" || !cfgHas config "database" then
    Except.error (PyErr.valueError
      "Failed to initialize PostgreSQL Manager due to bad configs")
  else if !pyTruthy (cfgGetD config "host" PyVal.pynone) ||
      !pyTruthy (cfgGetD config "user" PyVal.pynone) ||
      !pyTruthy (cfgGetD config "password" PyVal.pynone) ||
      !pyTruthy (cfgGetD config "database" PyVal.pynone) then
    Except.error (PyErr.valueError
      "Failed to initialize PostgreSQL Manager due to missing configs")
  else
    Except.ok { connection_config :=
                  { dbname := cfgGetD config "database" (PyVal.str "postgres"),
                    user := cfgGetD config "user" (PyVal.str "postgres"),
                    password := cfgGetD config "password" (PyVal.str ""),
                    host := cfgGetD config "host" (PyVal.str "127.0.0.1") },
                conn := Handle.unset, db := db, schema := Option.none }

/-- `PostgreSQLManager.update_schema_info`
(`information_schema.tables` + `information_schema.columns`). -/
def PostgreSQLManager.update_schema_info {DB Schema Row : Type}
    (drv : SqlDriver DB Schema Row) (s : PGState DB Schema) :
    Except String (PGState DB Schema) :=
  (sqlSchemaRefresh drv s.conn s.db).map
    (fun sch => { s with schema := Option.some sch })

/-- `PostgreSQLManager.connect`: the whole body is wrapped in
`try/except`.  If `psycopg2.connect` raises, the local `connection` is
still `None`, nothing is closed, a diagnostic line is printed and the
method returns normally.  If the native connect succeeds but a later step
(the schema queries) raises, the partially-established connection is
closed, the diagnostic is printed, and the method returns normally.  The
second component of the result is the printed output. -/
def PostgreSQLManager.connect {DB Schema Row : Type}
    (drv : SqlDriver DB Schema Row) (s : PGState DB Schema) :
    PGState DB Schema × List String :=
  match drv.connectErr with
  | Option.some e =>
      (s, ["Failed to connect to the database. Error: " ++ e])
  | Option.none =>
      let s1 := { s with conn := Handle.openH }
      match drv.schemaQuery s1.db with
      | Except.error e =>
          ({ s1 with conn := Handle.closedH },
            ["Failed to connect to the database. Error: " ++ e])
      | Except.ok sch => ({ s1 with schema := Option.some sch }, [])

/-- `PostgreSQLManager.execute_db_call`: same shape as the MySQL
executor. -/
def PostgreSQLManager.execute_db_call {DB Schema Row : Type}
    (drv : SqlDriver DB Schema Row) (s : PGState DB Schema)
    (call : String) : Except PyErr (PGState DB Schema × Nat) :=
  match s.conn with
  | Handle.unset => Except.error (PyErr.attrError "conn")
  | _ =>
      match cursorExec drv s.conn s.db call with
      | Except.error _ => Except.ok (s, 1)
      | Except.ok (db2, _rows) =>
          match sqlSchemaRefresh drv s.conn db2 with
          | Except.error _ => Except.ok ({ s with db := db2 }, 1)
          | Except.ok sch =>
              Except.ok ({ s with db := db2, schema := Option.some sch }, 0)

/-- `PostgreSQLManager.fetch_db_call`: same shape as the MySQL fetch. -/
def PostgreSQLManager.fetch_db_call {DB Schema Row : Type}
    (drv : SqlDriver DB Schema Row) (s : PGState DB Schema)
    (call : String) : Except PyErr (PGState DB Schema × List Row) :=
  match s.conn with
  | Handle.unset => Except.error (PyErr.attrError "conn")
  | _ =>
      match cursorExec drv s.conn s.db call with
      | Except.error _ => Except.ok (s, [])
      | Except.ok (db2, rows) =>
          match sqlSchemaRefresh drv s.conn db2 with
          | Except.error _ => Except.ok ({ s with db := db2 }, [])
          | Except.ok sch =>
              Except.ok ({ s with db := db2, schema := Option.some sch },
                rows)

/-! ### MongoDBManager -/

/-- The connection configuration assembled by `MongoDBManager.__init__`:
each field is the configured value or the documented default.  Note that
the default for `port` is the string `'27017'`, not an integer. -/
structure MongoCfg where
  host : PyVal
  port : PyVal
  password : PyVal
  dbname : PyVal
deriving DecidableEq, Repr

/-- Instance state of a `MongoDBManager`: the configuration, the
`conn` (client) attribute, the `db` attribute recording which database
name the client handle was opened on, the external store content, and
the `schema` attribute. -/
structure MongoState (MDB MSchema : Type) where
  connection_config : MongoCfg
  conn : Handle
  dbAttr : Option PyVal
  mdb : MDB
  schema : Option MSchema
deriving DecidableEq, Repr

/-- A parsed document command, after `json.loads` and the
`command.get(...)` extractions: `operation` and `collection` are absent
when the JSON object lacks them (`dict.get` yields `None`), while
`data`, `query` and `options` fall back to `{}` (payloads are opaque
here, of type `P`). -/
structure MongoCommand (P : Type) where
  operation : Option String
  collection : Option String
  data : P
  query : P
  options : P
deriving DecidableEq, Repr

/-- The pymongo driver as an oracle: whether
`MongoClient(host, port)` raises for given arguments, what the
collection enumeration and sampling of `update_schema_info` returns, and
one oracle per native collection/database method used by the dispatch
chain.  Mutating operations also return the fields the adapter reads off
the native result object. -/
structure MongoDriver (MDB MSchema Doc P : Type) where
  clientErr : PyVal → PyVal → Option String
  schemaQuery : MDB → Except String MSchema
  aggregate : MDB → Option String → P → P → Except String (MDB × List Doc)
  insertOne : MDB → Option String → P → Except String (MDB × PyVal)
  insertMany : MDB → Option String → P → Except String (MDB × List PyVal)
  find : MDB → Option String → P → P → Except String (MDB × List Doc)
  findOne : MDB → Option String → P → P → Except String (MDB × Option Doc)
  updateOne : MDB → Option String → P → P → P →
    Except String (MDB × Nat × Nat)
  updateMany : MDB → Option String → P → P → P →
    Except String (MDB × Nat × Nat)
  deleteOne : MDB → Option String → P → Except String (MDB × Nat)
  deleteMany : MDB → Option String → P → Except String (MDB × Nat)
  command : MDB → P → P → Except String (MDB × Doc)

/-- The value a dispatch branch of `fetch_db_call` returns (the
status-only executor prints the same value instead of returning it):
either a failure status from the `except` handler, or the per-operation
result shape. -/
inductive MongoFetchRet (Doc : Type) where
  | status (n : Nat)
  | docs (l : List Doc)
  | docOpt (d : Option Doc)
  | insertedId (i : PyVal)
  | insertedIds (l : List PyVal)
  | matchedModified (m n : Nat)
  | deletedCount (n : Nat)
  | rawDoc (d : Doc)
deriving DecidableEq, Repr

/-- A native call against a client object whose underlying connection was
closed raises before reaching the server. -/
def mongoNativeGuard {A : Type} (h : Handle) (r : Except String A) :
    Except String A :=
  match h with
  | Handle.closedH => Except.error "Cannot use MongoClient after close"
  | _ => r

/-- The arguments the adapter passes to the native client constructor:
`pymongo.MongoClient(self.connection_config['host'],
self.connection_config['port'])` — nothing else, in particular not the
stored password. -/
def mongoClientArgs (cfg : MongoCfg) : PyVal × PyVal := (cfg.host, cfg.port)

/-- `MongoDBManager.__init__`: requires only that `host` is a key of the
configuration (`if 'host' not in keys: raise ValueError(...)`) — the
value is not inspected — then stores each field with its ternary
default.  No driver call is made. -/
def MongoDBManager.init {MDB MSchema : Type} (config : Config) (mdb : MDB) :
    Except PyErr (MongoState MDB MSchema) :=
  if !cfgHas config "host" then
    Except.error (PyErr.valueError
      "Failed to initialize MongoDB Manager due to bad configs")
  else
    let cfg : MongoCfg :=
      { host := cfgGetD config "host" (PyVal.str "127.0.0.1"),
        port := cfgGetD config "port" (PyVal.str "27017"),
        password := cfgGetD config "password" (PyVal.str ""),
        dbname := cfgGetD config "database" (PyVal.str "mydb") }
    Except.ok { connection_config := cfg, conn := Handle.unset,
                dbAttr := Option.none, mdb := mdb, schema := Option.none }

/-- `MongoDBManager.update_schema_info`: lists the non-`system.`
collections and samples one document from each, overwriting
`self.schema`.  On a missing or closed handle the underlying calls
raise. -/
def MongoDBManager.update_schema_info {MDB MSchema Doc P : Type}
    (drv : MongoDriver MDB MSchema Doc P) (s : MongoState MDB MSchema) :
    Except String (MongoState MDB MSchema) :=
  match s.conn with
  | Handle.unset => Except.error "AttributeError: db"
  | Handle.closedH => Except.error "Cannot use MongoClient after close"
  | Handle.openH =>
      (drv.schemaQuery s.mdb).map
        (fun sch => { s with schema := Option.some sch })

/-- `MongoDBManager.connect`: wrapped in `try/except` like the
PostgreSQL connect.  On client-constructor failure nothing was
established, a diagnostic is printed, and the method returns normally;
after a successful constructor the handle and the selected database are
stored, and a failure of the first schema refresh closes the
partially-established client and prints the diagnostic.  The second
component of the result is the printed output. -/
def MongoDBManager.connect {MDB MSchema Doc P : Type}
    (drv : MongoDriver MDB MSchema Doc P) (s : MongoState MDB MSchema) :
    MongoState MDB MSchema × List String :=
  match drv.clientErr (mongoClientArgs s.connection_config).1
      (mongoClientArgs s.connection_config).2 with
  | Option.some e =>
      (s, ["Failed to connect to the database. Error: " ++ e])
  | Option.none =>
      let s1 :=
        { s with conn := Handle.openH, dbAttr := Option.some s.connection_config.dbname }
      match drv.schemaQuery s1.mdb with
      | Except.error e =>
          ({ s1 with conn := Handle.closedH },
            ["Failed to connect to the database. Error: " ++ e])
      | Except.ok sch => ({ s1 with schema := Option.some sch }, [])

/-- The `if operation == ... elif ...` dispatch chain shared verbatim by
`execute_db_call` (which prints each branch result) and `fetch_db_call`
(which returns it): strictly by string comparison on the `operation`
value, each recognised operation mapping to exactly one native call, and
anything else raising `ValueError("Unsupported operation type")`. -/
def mongoFetchBody {MDB MSchema Doc P : Type}
    (drv : MongoDriver MDB MSchema Doc P) (h : Handle) (mdb : MDB)
    (cmd : MongoCommand P) : Except String (MDB × MongoFetchRet Doc) :=
  if cmd.operation = Option.some "aggregate" then
    mongoNativeGuard h ((drv.aggregate mdb cmd.collection cmd.data
      cmd.options).map (fun r => (r.1, MongoFetchRet.docs r.2)))
  else if cmd.operation = Option.some "insert_one" then
    mongoNativeGuard h ((drv.insertOne mdb cmd.collection cmd.data).map
      (fun r => (r.1, MongoFetchRet.insertedId r.2)))
  else if cmd.operation = Option.some "insert_many" then
    mongoNativeGuard h ((drv.insertMany mdb cmd.collection cmd.data).map
      (fun r => (r.1, MongoFetchRet.insertedIds r.2)))
  else if cmd.operation = Option.some "find" then
    mongoNativeGuard h ((drv.find mdb cmd.collection cmd.query
      cmd.options).map (fun r => (r.1, MongoFetchRet.docs r.2)))
  else if cmd.operation = Option.some "find_one" then
    mongoNativeGuard h ((drv.findOne mdb cmd.collection cmd.query
      cmd.options).map (fun r => (r.1, MongoFetchRet.docOpt r.2)))
  else if cmd.operation = Option.some "update_one" then
    mongoNativeGuard h ((drv.updateOne mdb cmd.collection cmd.query
      cmd.data cmd.options).map
      (fun r => (r.1, MongoFetchRet.matchedModified r.2.1 r.2.2)))
  else if cmd.operation = Option.some "update_many" then
    mongoNativeGuard h ((drv.updateMany mdb cmd.collection cmd.query
      cmd.data cmd.options).map
      (fun r => (r.1, MongoFetchRet.matchedModified r.2.1 r.2.2)))
  else if cmd.operation = Option.some "delete_one" then
    mongoNativeGuard h ((drv.deleteOne mdb cmd.collection cmd.query).map
      (fun r => (r.1, MongoFetchRet.deletedCount r.2)))
  else if cmd.operation = Option.some "delete_many" then
    mongoNativeGuard h ((drv.deleteMany mdb cmd.collection cmd.query).map
      (fun r => (r.1, MongoFetchRet.deletedCount r.2)))
  else if cmd.operation = Option.some "command" then
    mongoNativeGuard h ((drv.command mdb cmd.data cmd.options).map
      (fun r => (r.1, MongoFetchRet.rawDoc r.2)))
  else Except.error "Unsupported operation type"

/-- `MongoDBManager.execute_db_call`: the `if not self.conn:` guard
behaves exactly as in the relational managers (the lazy branch is
unreachable).  Inside the `try`, the dispatch chain runs and its result
is printed; on success `update_schema_info()` runs and the status `0` is
returned; any exception (including the `ValueError` of an unrecognised
operation) is printed and collapsed to status `1`. -/
def MongoDBManager.execute_db_call {MDB MSchema Doc P : Type}
    (drv : MongoDriver MDB MSchema Doc P) (s : MongoState MDB MSchema)
    (cmd : MongoCommand P) : Except PyErr (MongoState MDB MSchema × Nat) :=
  match s.conn with
  | Handle.unset => Except.error (PyErr.attrError "conn")
  | _ =>
      match mongoFetchBody drv s.conn s.mdb cmd with
      | Except.error _ => Except.ok (s, 1)
      | Except.ok (m2, _printed) =>
          match MongoDBManager.update_schema_info drv { s with mdb := m2 } with
          | Except.error _ => Except.ok ({ s with mdb := m2 }, 1)
          | Except.ok s2 => Except.ok (s2, 0)

/-- `MongoDBManager.fetch_db_call`: same guard and dispatch chain, but
every successful branch returns its result directly, so the trailing
`self.update_schema_info()` / `return 0` of the method body is
unreachable and the snapshot is not refreshed; any exception is printed
and — unlike the relational fetches — collapsed to the integer status
`1`. -/
def MongoDBManager.fetch_db_call {MDB MSchema Doc P : Type}
    (drv : MongoDriver MDB MSchema Doc P) (s : MongoState MDB MSchema)
    (cmd : MongoCommand P) :
    Except PyErr (MongoState MDB MSchema × MongoFetchRet Doc) :=
  match s.conn with
  | Handle.unset => Except.error (PyErr.attrError "conn")
  | _ =>
      match mongoFetchBody drv s.conn s.mdb cmd with
      | Except.error _ => Except.ok (s, MongoFetchRet.status 1)
      | Except.ok (m2, r) => Except.ok ({ s with mdb := m2 }, r)

/-- `MongoDBManager.close`: `if self.conn: self.conn.close()` — raises
`AttributeError` on a never-connected instance; `MongoClient.close` is
idempotent, so re-closing neither raises nor changes anything. -/
def MongoDBManager.close {MDB MSchema : Type} (s : MongoState MDB MSchema) :
    Except PyErr (MongoState MDB MSchema) :=
  match s.conn with
  | Handle.unset => Except.error (PyErr.attrError "conn")
  | Handle.openH => Except.ok { s with conn := Handle.closedH }
  | Handle.closedH => Except.ok s

/-- Replace the stored password of a MongoDB adapter state, leaving
everything else untouched (used to state that the password plays no role
in connecting). -/
def mongoSetPw {MDB MSchema : Type} (pw : PyVal)
    (s : MongoState MDB MSchema) : MongoState MDB MSchema :=
  { s with connection_config := { s.connection_config with password := pw } }

/-! ### Concrete driver behaviours and instance states

Used to evaluate the adapters on explicit inputs.  `demoDrv` is a
well-behaved sqlite3 behaviour over a counter database; `traceDrv`
records every statement the cursor executes; `errSqlDrv` fails both at
connect time and on every statement; `badSchemaDrv` connects but fails
the catalog queries. -/

/-- A well-behaved SQL driver over a `Nat` counter database: every
statement bumps the counter, the catalog query reports the counter, and
re-closing a closed handle raises, as sqlite3 does. -/
def demoDrv : SqlDriver Nat Nat Nat where
  connectErr := Option.none
  execStmt := fun db _ => Except.ok (db + 1, [])
  schemaQuery := fun db => Except.ok db
  closeClosedErr := Option.some "Cannot operate on a closed database"

/-- A SQL driver that records executed statements: the database state is
the list of statements the cursor has run, in order. -/
def traceDrv : SqlDriver (List String) Nat Nat where
  connectErr := Option.none
  execStmt := fun db c => Except.ok (db ++ [c], [])
  schemaQuery := fun _ => Except.ok 0
  closeClosedErr := Option.none

/-- A SQL driver whose native connect raises and whose statements all
raise. -/
def errSqlDrv : SqlDriver Nat Nat Nat where
  connectErr := Option.some "unable to open database file"
  execStmt := fun _ _ => Except.error "syntax error"
  schemaQuery := fun db => Except.ok db
  closeClosedErr := Option.none

/-- A SQL driver whose native connect succeeds but whose catalog queries
raise. -/
def badSchemaDrv : SqlDriver Nat Nat Nat where
  connectErr := Option.none
  execStmt := fun db _ => Except.ok (db, [])
  schemaQuery := fun _ => Except.error "catalog failure"
  closeClosedErr := Option.none

/-- A freshly constructed `SQLiteManager` on `test.db`: no handle, no
snapshot. -/
def sqliteFresh : SQLiteState Nat Nat :=
  { db_path := PyVal.str "test.db", conn := Handle.unset, db := 0,
    schema := Option.none }

/-- The same manager after a successful `connect()` under `demoDrv`. -/
def sqliteOpen : SQLiteState Nat Nat :=
  { db_path := PyVal.str "test.db", conn := Handle.openH, db := 0,
    schema := Option.some 0 }

/-- The same manager after `close()`: the attribute still holds the
(now closed) connection object. -/
def sqliteClosed : SQLiteState Nat Nat :=
  { db_path := PyVal.str "test.db", conn := Handle.closedH, db := 0,
    schema := Option.some 0 }

/-- A PostgreSQL configuration record as stored after validation. -/
def pgDemoCfg : PgCfg :=
  { dbname := PyVal.str "postgres", user := PyVal.str "root",
    password := PyVal.str "secret", host := PyVal.str "127.0.0.1" }

/-- A freshly constructed `PostgreSQLManager`. -/
def pgFresh : PGState Nat Nat :=
  { connection_config := pgDemoCfg, conn := Handle.unset, db := 0,
    schema := Option.none }

/-- A MongoDB configuration record as stored after construction. -/
def mongoDemoCfg : MongoCfg :=
  { host := PyVal.str "localhost", port := PyVal.str "27017",
    password := PyVal.str "", dbname := PyVal.str "mydb" }

/-- A freshly constructed `MongoDBManager`. -/
def mongoFresh : MongoState Nat Nat :=
  { connection_config := mongoDemoCfg, conn := Handle.unset,
    dbAttr := Option.none, mdb := 0, schema := Option.some 0 }

/-- A connected `MongoDBManager` whose store content is the counter `0`
and whose snapshot was taken at that point. -/
def mongoOpen : MongoState Nat Nat :=
  { connection_config := mongoDemoCfg, conn := Handle.openH,
    dbAttr := Option.some (PyVal.str "mydb"), mdb := 0,
    schema := Option.some 0 }

/-- `mongoOpen` after one successful `insert_one` through the fetch
path: the store moved to `1` while the snapshot still says `0`. -/
def mongoAfterInsert : MongoState Nat Nat :=
  { connection_config := mongoDemoCfg, conn := Handle.openH,
    dbAttr := Option.some (PyVal.str "mydb"), mdb := 1,
    schema := Option.some 0 }

/-- A well-behaved pymongo behaviour over a `Nat` counter store:
`insert_one` bumps the counter, the collection enumeration reports the
counter, reads return nothing. -/
def mongoDemoDrv : MongoDriver Nat Nat Nat Nat where
  clientErr := fun _ _ => Option.none
  schemaQuery := fun m => Except.ok m
  aggregate := fun m _ _ _ => Except.ok (m, [])
  insertOne := fun m _ _ => Except.ok (m + 1, PyVal.int 7)
  insertMany := fun m _ _ => Except.ok (m, [])
  find := fun m _ _ _ => Except.ok (m, [])
  findOne := fun m _ _ _ => Except.ok (m, Option.none)
  updateOne := fun m _ _ _ _ => Except.ok (m, 0, 0)
  updateMany := fun m _ _ _ _ => Except.ok (m, 0, 0)
  deleteOne := fun m _ _ => Except.ok (m, 0)
  deleteMany := fun m _ _ => Except.ok (m, 0)
  command := fun m _ _ => Except.ok (m, 0)

/-- A pymongo behaviour in which every native collection operation
raises. -/
def mongoErrDrv : MongoDriver Nat Nat Nat Nat where
  clientErr := fun _ _ => Option.none
  schemaQuery := fun m => Except.ok m
  aggregate := fun _ _ _ _ => Except.error "network error"
  insertOne := fun _ _ _ => Except.error "network error"
  insertMany := fun _ _ _ => Except.error "network error"
  find := fun _ _ _ _ => Except.error "network error"
  findOne := fun _ _ _ _ => Except.error "network error"
  updateOne := fun _ _ _ _ _ => Except.error "network error"
  updateMany := fun _ _ _ _ _ => Except.error "network error"
  deleteOne := fun _ _ _ => Except.error "network error"
  deleteMany := fun _ _ _ => Except.error "network error"
  command := fun _ _ _ => Except.error "network error"

/-- A pymongo behaviour whose client constructor raises. -/
def mongoClientFailDrv : MongoDriver Nat Nat Nat Nat where
  clientErr := fun _ _ => Option.some "connection refused"
  schemaQuery := fun m => Except.ok m
  aggregate := fun m _ _ _ => Except.ok (m, [])
  insertOne := fun m _ _ => Except.ok (m, PyVal.int 7)
  insertMany := fun m _ _ => Except.ok (m, [])
  find := fun m _ _ _ => Except.ok (m, [])
  findOne := fun m _ _ _ => Except.ok (m, Option.none)
  updateOne := fun m _ _ _ _ => Except.ok (m, 0, 0)
  updateMany := fun m _ _ _ _ => Except.ok (m, 0, 0)
  deleteOne := fun m _ _ => Except.ok (m, 0)
  deleteMany := fun m _ _ => Except.ok (m, 0)
  command := fun m _ _ => Except.ok (m, 0)

/-- The parsed command
`{"operation": "insert_one", "collection": "c", "data": ...}`. -/
def insertOneCmd : MongoCommand Nat :=
  { operation := Option.some "insert_one", collection := Option.some "c",
    data := 1, query := 0, options := 0 }

/-- The parsed command
`{"operation": "find", "collection": "c", "query": ...}`. -/
def findCmd : MongoCommand Nat :=
  { operation := Option.some "find", collection := Option.some "c",
    data := 0, query := 0, options := 0 }

/-- A parsed command whose operation value is outside the dispatch set. -/
def unknownOpCmd : MongoCommand Nat :=
  { operation := Option.some "drop_collection",
    collection := Option.some "c", data := 0, query := 0, options := 0 }

/-! ### Helper lemmas -/

/-- The ten operation strings recognised by the document dispatch
chain. -/
def mongoOperations : List String :=
  ["aggregate", "insert_one", "insert_many", "find", "find_one",
   "update_one", "update_many", "delete_one", "delete_many", "command"]

theorem cfgHas_of_get {c : Config} {k : String} {v : PyVal}
    (h : cfgGet c k = Option.some v) : cfgHas c k = true := by
  simp [cfgHas, h]

theorem cfgGetD_of_get {c : Config} {k : String} {v : PyVal} (d : PyVal)
    (h : cfgGet c k = Option.some v) : cfgGetD c k d = v := by
  simp [cfgGetD, h]

theorem cfgGetD_of_not_has {c : Config} {k : String} (d : PyVal)
    (h : cfgHas c k = false) : cfgGetD c k d = d := by
  cases hg : cfgGet c k with
  | none => simp [cfgGetD, hg]
  | some v => rw [cfgHas, hg] at h; simp at h

/-- Under the tracing driver, running a list of segments through the
cursor appends exactly those segments, in order, and succeeds. -/
theorem sqliteRunCommands_trace (cmds : List String) (tr : List String) :
    sqliteRunCommands traceDrv Handle.openH cmds tr = (tr ++ cmds, true) := by
  induction cmds generalizing tr with
  | nil => simp [sqliteRunCommands]
  | cons c cs ih =>
      have hstep : cursorExec traceDrv Handle.openH tr c =
          Except.ok (tr ++ [c], []) := rfl
      simp [sqliteRunCommands, hstep, ih]

/-- An operation value outside the dispatch set falls through every
branch of the chain to the `ValueError`. -/
theorem mongoFetchBody_unknown {MDB MSchema Doc P : Type}
    (drv : MongoDriver MDB MSchema Doc P) (h : Handle) (mdb : MDB)
    (cmd : MongoCommand P)
    (hop : ∀ op : String, cmd.operation = Option.some op →
      op ∉ mongoOperations) :
    mongoFetchBody drv h mdb cmd = Except.error "Unsupported operation type" := by
  have h1 : ¬ (cmd.operation = Option.some "aggregate") :=
    fun hh => hop _ hh (by decide)
  have h2 : ¬ (cmd.operation = Option.some "insert_one") :=
    fun hh => hop _ hh (by decide)
  have h3 : ¬ (cmd.operation = Option.some "insert_many") :=
    fun hh => hop _ hh (by decide)
  have h4 : ¬ (cmd.operation = Option.some "find") :=
    fun hh => hop _ hh (by decide)
  have h5 : ¬ (cmd.operation = Option.some "find_one") :=
    fun hh => hop _ hh (by decide)
  have h6 : ¬ (cmd.operation = Option.some "update_one") :=
    fun hh => hop _ hh (by decide)
  have h7 : ¬ (cmd.operation = Option.some "update_many") :=
    fun hh => hop _ hh (by decide)
  have h8 : ¬ (cmd.operation = Option.some "delete_one") :=
    fun hh => hop _ hh (by decide)
  have h9 : ¬ (cmd.operation = Option.some "delete_many") :=
    fun hh => hop _ hh (by decide)
  have h10 : ¬ (cmd.operation = Option.some "command") :=
    fun hh => hop _ hh (by decide)
  simp only [mongoFetchBody, if_neg h1, if_neg h2, if_neg h3, if_neg h4,
    if_neg h5, if_neg h6, if_neg h7, if_neg h8, if_neg h9, if_neg h10]

/-! ### Claims -/

/-- C1: the spec claims that an execute/fetch operation observing an
absent handle establishes one before proceeding, and in particular that
`close()` followed by another operation transparently reconnects and
succeeds.  Evaluating the code shows otherwise: after a successful
`connect()` and `close()` under a well-behaved driver, `execute_db_call`
returns the failure status `1` and `fetch_db_call` returns `[]` with the
handle still closed (the lazy-connect guard never fires because the
closed connection object is truthy), and on a never-connected manager
the guard itself raises `AttributeError` instead of connecting. -/
theorem C1_lazy_reconnect_fails :
    SQLiteManager.init [("path", PyVal.str "test.db")] 0 = Except.ok sqliteFresh ∧
    SQLiteManager.connect demoDrv sqliteFresh = Except.ok sqliteOpen ∧
    SQLiteManager.close demoDrv sqliteOpen = Except.ok sqliteClosed ∧
    SQLiteManager.execute_db_call demoDrv sqliteClosed "SELECT 1" =
      Except.ok (sqliteClosed, 1) ∧
    SQLiteManager.fetch_db_call demoDrv sqliteClosed "SELECT 1" =
      Except.ok (sqliteClosed, ([] : List Nat)) ∧
    SQLiteManager.execute_db_call demoDrv sqliteFresh "SELECT 1" =
      Except.error (PyErr.attrError "conn") :=
  ⟨rfl, rfl, rfl, rfl, rfl, rfl⟩

/-- C7: the spec claims `close()` is idempotent and a no-op on a
never-opened adapter.  Evaluating the code: on a never-connected
manager, `if self.conn:` reads a never-assigned attribute and raises
`AttributeError` (shown for both the SQLite and the MongoDB adapter);
on an open handle close does release cursor and connection together;
and a second `close()` re-runs the close calls on the already-closed
sqlite3 handle, which raises `ProgrammingError` rather than being a
no-op. -/
theorem C7_close_not_idempotent :
    SQLiteManager.close demoDrv sqliteFresh =
      Except.error (PyErr.attrError "conn") ∧
    MongoDBManager.close mongoFresh = Except.error (PyErr.attrError "conn") ∧
    SQLiteManager.close demoDrv sqliteOpen = Except.ok sqliteClosed ∧
    SQLiteManager.close demoDrv sqliteClosed =
      Except.error (PyErr.nativeError "Cannot operate on a closed database") :=
  ⟨rfl, rfl, rfl, rfl⟩

/-- C3: the spec claims every execute/fetch call that completes without
a native error refreshes the schema snapshot before returning.
Evaluating `MongoDBManager.fetch_db_call` on a successful `insert_one`
shows the violation: the store content moves from `0` to `1` and the
result is returned, but the snapshot still holds the pre-call value `0`
even though the catalog query would now report `1` — every dispatch
branch returns before the trailing `update_schema_info()`, which is
unreachable. -/
theorem C3_mongo_fetch_skips_refresh :
    MongoDBManager.fetch_db_call mongoDemoDrv mongoOpen insertOneCmd =
      Except.ok (mongoAfterInsert, MongoFetchRet.insertedId (PyVal.int 7)) ∧
    mongoAfterInsert.schema = Option.some 0 ∧
    mongoDemoDrv.schemaQuery mongoAfterInsert.mdb = Except.ok 1 :=
  ⟨rfl, rfl, rfl⟩

/-- C2 (counterexample): the claim says every backend's
`fetch_db_call` returns the empty list when a native error occurs.  For
the document backend this is false: under a driver whose `find` raises,
the fetch returns the integer status `1`, which is not the empty result
list. -/
theorem C2_mongo_fetch_error_not_empty :
    MongoDBManager.fetch_db_call mongoErrDrv mongoOpen findCmd =
      Except.ok (mongoOpen, MongoFetchRet.status 1) ∧
    MongoFetchRet.status 1 ≠ MongoFetchRet.docs ([] : List Nat) :=
  ⟨rfl, by decide⟩

/-- C2 (amended): for the three relational backends (SQLite, MySQL,
PostgreSQL), a native error during `fetch_db_call` on an open handle
yields the empty list; the document backend's `fetch_db_call` instead
returns the integer status `1` on a native error. -/
theorem C2_fetch_error_returns :
    (∀ (DB Schema Row : Type) (drv : SqlDriver DB Schema Row)
        (s : SQLiteState DB Schema) (call : String) (e : String),
        s.conn = Handle.openH → drv.execStmt s.db call = Except.error e →
        SQLiteManager.fetch_db_call drv s call = Except.ok (s, ([] : List Row))) ∧
    (∀ (DB Schema Row : Type) (drv : SqlDriver DB Schema Row)
        (s : MySQLState DB Schema) (call : String) (e : String),
        s.conn = Handle.openH → drv.execStmt s.db call = Except.error e →
        MySQLManager.fetch_db_call drv s call = Except.ok (s, ([] : List Row))) ∧
    (∀ (DB Schema Row : Type) (drv : SqlDriver DB Schema Row)
        (s : PGState DB Schema) (call : String) (e : String),
        s.conn = Handle.openH → drv.execStmt s.db call = Except.error e →
        PostgreSQLManager.fetch_db_call drv s call = Except.ok (s, ([] : List Row))) ∧
    (∀ (MDB MSchema Doc P : Type) (drv : MongoDriver MDB MSchema Doc P)
        (s : MongoState MDB MSchema) (cmd : MongoCommand P) (e : String),
        s.conn = Handle.openH → cmd.operation = Option.some "find" →
        drv.find s.mdb cmd.collection cmd.query cmd.options = Except.error e →
        MongoDBManager.fetch_db_call drv s cmd =
          Except.ok (s, MongoFetchRet.status 1)) := by
  refine ⟨?_, ?_, ?_, ?_⟩
  · intro DB Schema Row drv s call e hconn herr
    obtain ⟨p, conn, db, sch⟩ := s
    simp only at hconn
    subst hconn
    simp [SQLiteManager.fetch_db_call, cursorExec, herr]
  · intro DB Schema Row drv s call e hconn herr
    obtain ⟨cfg, conn, db, sch⟩ := s
    simp only at hconn
    subst hconn
    simp [MySQLManager.fetch_db_call, cursorExec, herr]
  · intro DB Schema Row drv s call e hconn herr
    obtain ⟨cfg, conn, db, sch⟩ := s
    simp only at hconn
    subst hconn
    simp [PostgreSQLManager.fetch_db_call, cursorExec, herr]
  · intro MDB MSchema Doc P drv s cmd e hconn hop herr
    obtain ⟨cfg, conn, dbA, mdb, sch⟩ := s
    simp only at hconn
    subst hconn
    simp [MongoDBManager.fetch_db_call, mongoFetchBody, hop,
      mongoNativeGuard, herr, Except.map]

/-- C2 (witness): the hypotheses of the amended claim are satisfiable —
under a failing driver the SQLite fetch returns `[]` and the MongoDB
fetch returns status `1`. -/
theorem C2_fetch_error_returns_witness :
    errSqlDrv.execStmt (0 : Nat) "SELECT 1" = Except.error "syntax error" ∧
    SQLiteManager.fetch_db_call errSqlDrv sqliteOpen "SELECT 1" =
      Except.ok (sqliteOpen, ([] : List Nat)) ∧
    MongoDBManager.fetch_db_call mongoErrDrv mongoOpen findCmd =
      Except.ok (mongoOpen, MongoFetchRet.status 1) :=
  ⟨rfl,
   C2_fetch_error_returns.1 Nat Nat Nat errSqlDrv sqliteOpen "SELECT 1"
     "syntax error" rfl rfl,
   C2_fetch_error_returns.2.2.2 Nat Nat Nat Nat mongoErrDrv mongoOpen
     findCmd "network error" rfl rfl rfl⟩

/-- C4 (counterexample): the claim says connect failure never hits the
caller with an unhandled native exception on any backend.  The SQLite
adapter's `connect` has no handler: with a driver whose native connect
raises, the exception propagates to the caller. -/
theorem C4_sqlite_connect_propagates :
    SQLiteManager.connect errSqlDrv sqliteFresh =
      Except.error (PyErr.nativeError "unable to open database file") :=
  rfl

/-- C4 (amended): only the PostgreSQL and MongoDB adapters wrap
`connect()` in a handler.  For those two, a native connect failure (or a
failure after a partially-established connection) closes any partial
handle, prints a diagnostic carrying the native error text, and returns
normally to the caller; the SQLite and MySQL adapters propagate the
native exception to the caller unhandled, releasing nothing. -/
theorem C4_connect_failure_handling :
    (∀ (DB Schema Row : Type) (drv : SqlDriver DB Schema Row)
        (s : SQLiteState DB Schema) (e : String),
        drv.connectErr = Option.some e →
        SQLiteManager.connect drv s = Except.error (PyErr.nativeError e)) ∧
    (∀ (DB Schema Row : Type) (drv : SqlDriver DB Schema Row)
        (s : MySQLState DB Schema) (e : String),
        drv.connectErr = Option.some e →
        MySQLManager.connect drv s = Except.error (PyErr.nativeError e)) ∧
    (∀ (DB Schema Row : Type) (drv : SqlDriver DB Schema Row)
        (s : PGState DB Schema) (e : String),
        drv.connectErr = Option.some e →
        PostgreSQLManager.connect drv s =
          (s, ["Failed to connect to the database. Error: " ++ e])) ∧
    (∀ (DB Schema Row : Type) (drv : SqlDriver DB Schema Row)
        (s : PGState DB Schema) (e : String),
        drv.connectErr = Option.none →
        drv.schemaQuery s.db = Except.error e →
        PostgreSQLManager.connect drv s =
          ({ s with conn := Handle.closedH },
            ["Failed to connect to the database. Error: " ++ e])) ∧
    (∀ (MDB MSchema Doc P : Type) (drv : MongoDriver MDB MSchema Doc P)
        (s : MongoState MDB MSchema) (e : String),
        drv.clientErr s.connection_config.host s.connection_config.port =
          Option.some e →
        MongoDBManager.connect drv s =
          (s, ["Failed to connect to the database. Error: " ++ e])) := by
  refine ⟨?_, ?_, ?_, ?_, ?_⟩
  · intro DB Schema Row drv s e h
    simp [SQLiteManager.connect, h]
  · intro DB Schema Row drv s e h
    simp [MySQLManager.connect, h]
  · intro DB Schema Row drv s e h
    simp [PostgreSQLManager.connect, h]
  · intro DB Schema Row drv s e h1 h2
    obtain ⟨cfg, conn, db, sch⟩ := s
    simp only at h2
    simp [PostgreSQLManager.connect, h1, h2]
  · intro MDB MSchema Doc P drv s e h
    obtain ⟨cfg, conn, dbA, mdb, sch⟩ := s
    simp only at h
    simp [MongoDBManager.connect, mongoClientArgs, h]

/-- C4 (witness): the hypotheses of the amended claim are satisfiable —
a failing native connect makes the SQLite adapter raise while the
PostgreSQL and MongoDB adapters return normally with the diagnostic, and
a post-connect failure leaves the PostgreSQL handle closed. -/
theorem C4_connect_failure_handling_witness :
    errSqlDrv.connectErr = Option.some "unable to open database file" ∧
    MySQLManager.connect errSqlDrv
        { connection_config :=
            { host := PyVal.str "127.0.0.1", user := PyVal.str "root",
              password := PyVal.str "secret", database := PyVal.str "d" },
          conn := Handle.unset, db := (0 : Nat),
          schema := (Option.none : Option Nat) } =
      Except.error (PyErr.nativeError "unable to open database file") ∧
    PostgreSQLManager.connect errSqlDrv pgFresh =
      (pgFresh,
        ["Failed to connect to the database. Error: unable to open database file"]) ∧
    PostgreSQLManager.connect badSchemaDrv pgFresh =
      ({ pgFresh with conn := Handle.closedH },
        ["Failed to connect to the database. Error: catalog failure"]) ∧
    MongoDBManager.connect mongoClientFailDrv mongoFresh =
      (mongoFresh, ["Failed to connect to the database. Error: connection refused"]) := by
  refine ⟨rfl, ?_, ?_, ?_, ?_⟩
  · exact C4_connect_failure_handling.2.1 Nat Nat Nat errSqlDrv _
      "unable to open database file" rfl
  · exact C4_connect_failure_handling.2.2.1 Nat Nat Nat errSqlDrv pgFresh
      "unable to open database file" rfl
  · exact C4_connect_failure_handling.2.2.2.1 Nat Nat Nat badSchemaDrv
      pgFresh "catalog failure" rfl rfl
  · exact C4_connect_failure_handling.2.2.2.2 Nat Nat Nat Nat
      mongoClientFailDrv mongoFresh "connection refused" rfl

/-- C5 (counterexample): the claim says the PostgreSQL adapter accepts a
configuration omitting any of `database`, `user`, `password`, `host` and
falls back to defaults.  A configuration with `host`, `user` and
`password` set but `database` omitted is rejected at construction with a
`ValueError`; the written defaults never apply. -/
theorem C5_postgres_missing_database_rejected :
    (PostgreSQLManager.init
        [("host", PyVal.str "127.0.0.1"), ("user", PyVal.str "root"),
         ("password", PyVal.str "secret")] 0 :
      Except PyErr (PGState Nat Nat)) =
    Except.error (PyErr.valueError
      "Failed to initialize PostgreSQL Manager due to bad configs") :=
  rfl

/-- C5 (amended): the PostgreSQL adapter requires all of `host`, `user`,
`password`, `database` to be present and non-empty at construction,
raising `ValueError` otherwise; when validation passes, the stored
configuration is exactly the supplied values (the written fallbacks
`postgres`/`postgres`/empty/`127.0.0.1` are unreachable) and the handle
is left absent. -/
theorem C5_postgres_init_requires_all :
    (∀ (DB Schema : Type) (config : Config) (db : DB),
        cfgHas config "host" = false ∨ cfgHas config "user" = false ∨
        cfgHas config "password" = false ∨ cfgHas config "database" = false →
        PostgreSQLManager.init config db =
          (Except.error (PyErr.valueError
            "Failed to initialize PostgreSQL Manager due to bad configs") :
            Except PyErr (PGState DB Schema))) ∧
    (∀ (DB Schema : Type) (config : Config) (db : DB)
        (vh vu vp vd : PyVal),
        cfgGet config "host" = Option.some vh →
        cfgGet config "user" = Option.some vu →
        cfgGet config "password" = Option.some vp →
        cfgGet config "database" = Option.some vd →
        pyTruthy vh = false ∨ pyTruthy vu = false ∨
        pyTruthy vp = false ∨ pyTruthy vd = false →
        PostgreSQLManager.init config db =
          (Except.error (PyErr.valueError
            "Failed to initialize PostgreSQL Manager due to missing configs") :
            Except PyErr (PGState DB Schema))) ∧
    (∀ (DB Schema : Type) (config : Config) (db : DB)
        (vh vu vp vd : PyVal),
        cfgGet config "host" = Option.some vh →
        cfgGet config "user" = Option.some vu →
        cfgGet config "password" = Option.some vp →
        cfgGet config "database" = Option.some vd →
        pyTruthy vh = true → pyTruthy vu = true →
        pyTruthy vp = true → pyTruthy vd = true →
        PostgreSQLManager.init config db =
          (Except.ok
            { connection_config :=
                { dbname := vd, user := vu, password := vp, host := vh },
              conn := Handle.unset, db := db, schema := Option.none } :
            Except PyErr (PGState DB Schema))) := by
  refine ⟨?_, ?_, ?_⟩
  · intro DB Schema config db h
    rcases h with h | h | h | h <;> simp [PostgreSQLManager.init, h]
  · intro DB Schema config db vh vu vp vd hh hu hp hd htr
    have hash := cfgHas_of_get hh
    have hasu := cfgHas_of_get hu
    have hasp := cfgHas_of_get hp
    have hasd := cfgHas_of_get hd
    rcases htr with h | h | h | h <;>
      simp [PostgreSQLManager.init, hash, hasu, hasp, hasd,
        cfgGetD_of_get _ hh, cfgGetD_of_get _ hu, cfgGetD_of_get _ hp,
        cfgGetD_of_get _ hd, h]
  · intro DB Schema config db vh vu vp vd hh hu hp hd th tu tp td
    simp [PostgreSQLManager.init, cfgHas_of_get hh, cfgHas_of_get hu,
      cfgHas_of_get hp, cfgHas_of_get hd, cfgGetD_of_get _ hh,
      cfgGetD_of_get _ hu, cfgGetD_of_get _ hp, cfgGetD_of_get _ hd,
      th, tu, tp, td]

/-- C5 (witness): the hypotheses of the amended claim are satisfiable at
explicit configurations. -/
theorem C5_postgres_init_requires_all_witness :
    (PostgreSQLManager.init [("host", PyVal.str "h")] 0 :
        Except PyErr (PGState Nat Nat)) =
      Except.error (PyErr.valueError
        "Failed to initialize PostgreSQL Manager due to bad configs") ∧
    (PostgreSQLManager.init
        [("host", PyVal.str "h"), ("user", PyVal.str "u"),
         ("password", PyVal.str ""), ("database", PyVal.str "d")] 0 :
        Except PyErr (PGState Nat Nat)) =
      Except.error (PyErr.valueError
        "Failed to initialize PostgreSQL Manager due to missing configs") ∧
    (PostgreSQLManager.init
        [("host", PyVal.str "h"), ("user", PyVal.str "u"),
         ("password", PyVal.str "p"), ("database", PyVal.str "d")] 0 :
        Except PyErr (PGState Nat Nat)) =
      Except.ok
        { connection_config :=
            { dbname := PyVal.str "d", user := PyVal.str "u",
              password := PyVal.str "p", host := PyVal.str "h" },
          conn := Handle.unset, db := 0, schema := Option.none } := by
  refine ⟨?_, ?_, ?_⟩
  · exact C5_postgres_init_requires_all.1 Nat Nat _ 0 (Or.inr (Or.inl rfl))
  · exact C5_postgres_init_requires_all.2.1 Nat Nat _ 0
      (PyVal.str "h") (PyVal.str "u") (PyVal.str "") (PyVal.str "d")
      rfl rfl rfl rfl (Or.inr (Or.inr (Or.inl rfl)))
  · exact C5_postgres_init_requires_all.2.2 Nat Nat _ 0
      (PyVal.str "h") (PyVal.str "u") (PyVal.str "p") (PyVal.str "d")
      rfl rfl rfl rfl rfl rfl rfl rfl

/-- C6 (counterexample): the claim says every backend rejects a required
key that is present but empty.  The MongoDB adapter checks only that
`host` is a key: a configuration binding `host` to the empty string is
accepted at construction. -/
theorem C6_mongo_empty_host_accepted :
    (MongoDBManager.init [("host", PyVal.str "")] 0 :
        Except PyErr (MongoState Nat Nat)) =
      Except.ok
        { connection_config :=
            { host := PyVal.str "", port := PyVal.str "27017",
              password := PyVal.str "", dbname := PyVal.str "mydb" },
          conn := Handle.unset, dbAttr := Option.none, mdb := 0,
          schema := Option.none } :=
  rfl

/-- C6 (amended): every backend raises `ValueError` at construction when
a required key is missing, and every constructor that succeeds leaves
the handle absent (no native connection attempt — the constructors take
no driver).  The relational backends additionally reject a required key
whose value is empty; the document backend does not inspect the `host`
value. -/
theorem C6_construction_validation :
    (∀ (DB Schema : Type) (config : Config) (db : DB),
        cfgHas config "path" = false →
        SQLiteManager.init config db =
          (Except.error (PyErr.valueError
            "Failed to initialize SQLite Manager due to bad configs") :
            Except PyErr (SQLiteState DB Schema))) ∧
    (∀ (DB Schema : Type) (config : Config) (db : DB) (v : PyVal),
        cfgGet config "path" = Option.some v → pyTruthy v = false →
        SQLiteManager.init config db =
          (Except.error (PyErr.valueError
            "Failed to initialize SQLite Manager due to missing path") :
            Except PyErr (SQLiteState DB Schema))) ∧
    (∀ (DB Schema : Type) (config : Config) (db : DB)
        (s : SQLiteState DB Schema),
        SQLiteManager.init config db = Except.ok s → s.conn = Handle.unset) ∧
    (∀ (DB Schema : Type) (config : Config) (db : DB),
        cfgHas config "host" = false ∨ cfgHas config "user" = false ∨
        cfgHas config "password" = false ∨ cfgHas config "database" = false →
        MySQLManager.init config db =
          (Except.error (PyErr.valueError
            "Failed to initialize MySQL Manager due to bad configs") :
            Except PyErr (MySQLState DB Schema))) ∧
    (∀ (DB Schema : Type) (config : Config) (db : DB)
        (vh vu vp vd : PyVal),
        cfgGet config "host" = Option.some vh →
        cfgGet config "user" = Option.some vu →
        cfgGet config "password" = Option.some vp →
        cfgGet config "database" = Option.some vd →
        pyTruthy vh = false ∨ pyTruthy vu = false ∨
        pyTruthy vp = false ∨ pyTruthy vd = false →
        MySQLManager.init config db =
          (Except.error (PyErr.valueError
            "Failed to initialize MySQL Manager due to missing configs") :
            Except PyErr (MySQLState DB Schema))) ∧
    (∀ (DB Schema : Type) (config : Config) (db : DB)
        (s : MySQLState DB Schema),
        MySQLManager.init config db = Except.ok s → s.conn = Handle.unset) ∧
    (∀ (DB Schema : Type) (config : Config) (db : DB)
        (s : PGState DB Schema),
        PostgreSQLManager.init config db = Except.ok s →
          s.conn = Handle.unset) ∧
    (∀ (MDB MSchema : Type) (config : Config) (mdb : MDB),
        cfgHas config "host" = false →
        MongoDBManager.init config mdb =
          (Except.error (PyErr.valueError
            "Failed to initialize MongoDB Manager due to bad configs") :
            Except PyErr (MongoState MDB MSchema))) ∧
    (∀ (MDB MSchema : Type) (config : Config) (mdb : MDB)
        (s : MongoState MDB MSchema),
        MongoDBManager.init config mdb = Except.ok s →
          s.conn = Handle.unset) := by
  refine ⟨?_, ?_, ?_, ?_, ?_, ?_, ?_, ?_, ?_⟩
  · intro DB Schema config db h
    simp [SQLiteManager.init, h]
  · intro DB Schema config db v hget htr
    simp [SQLiteManager.init, cfgHas_of_get hget, cfgGetD_of_get _ hget, htr]
  · intro DB Schema config db s h
    simp only [SQLiteManager.init] at h
    split at h
    · exact absurd h (by simp)
    · split at h
      · exact absurd h (by simp)
      · rw [Except.ok.injEq] at h
        subst h
        rfl
  · intro DB Schema config db h
    rcases h with h | h | h | h <;> simp [MySQLManager.init, h]
  · intro DB Schema config db vh vu vp vd hh hu hp hd htr
    rcases htr with h | h | h | h <;>
      simp [MySQLManager.init, cfgHas_of_get hh, cfgHas_of_get hu,
        cfgHas_of_get hp, cfgHas_of_get hd, cfgGetD_of_get _ hh,
        cfgGetD_of_get _ hu, cfgGetD_of_get _ hp, cfgGetD_of_get _ hd, h]
  · intro DB Schema config db s h
    simp only [MySQLManager.init] at h
    split at h
    · exact absurd h (by simp)
    · split at h
      · exact absurd h (by simp)
      · rw [Except.ok.injEq] at h
        subst h
        rfl
  · intro DB Schema config db s h
    simp only [PostgreSQLManager.init] at h
    split at h
    · exact absurd h (by simp)
    · split at h
      · exact absurd h (by simp)
      · rw [Except.ok.injEq] at h
        subst h
        rfl
  · intro MDB MSchema config mdb h
    simp [MongoDBManager.init, h]
  · intro MDB MSchema config mdb s h
    simp only [MongoDBManager.init] at h
    split at h
    · exact absurd h (by simp)
    · rw [Except.ok.injEq] at h
      subst h
      rfl

/-- C6 (witness): the hypotheses of the amended claim are satisfiable at
explicit configurations for each backend. -/
theorem C6_construction_validation_witness :
    (SQLiteManager.init ([] : Config) 0 : Except PyErr (SQLiteState Nat Nat)) =
      Except.error (PyErr.valueError
        "Failed to initialize SQLite Manager due to bad configs") ∧
    (SQLiteManager.init [("path", PyVal.str "")] 0 :
        Except PyErr (SQLiteState Nat Nat)) =
      Except.error (PyErr.valueError
        "Failed to initialize SQLite Manager due to missing path") ∧
    sqliteFresh.conn = Handle.unset ∧
    (MySQLManager.init [("host", PyVal.str "h"), ("user", PyVal.str "u"),
        ("password", PyVal.str ""), ("database", PyVal.str "d")] 0 :
        Except PyErr (MySQLState Nat Nat)) =
      Except.error (PyErr.valueError
        "Failed to initialize MySQL Manager due to missing configs") ∧
    (MongoDBManager.init [("port", PyVal.int 27017)] 0 :
        Except PyErr (MongoState Nat Nat)) =
      Except.error (PyErr.valueError
        "Failed to initialize MongoDB Manager due to bad configs") ∧
    (∀ s : MongoState Nat Nat,
        MongoDBManager.init [("host", PyVal.str "localhost")] 0 =
          Except.ok s → s.conn = Handle.unset) := by
  refine ⟨?_, ?_, ?_, ?_, ?_, ?_⟩
  · exact C6_construction_validation.1 Nat Nat [] 0 rfl
  · exact C6_construction_validation.2.1 Nat Nat _ 0 (PyVal.str "") rfl rfl
  · exact C6_construction_validation.2.2.1 Nat Nat
      [("path", PyVal.str "test.db")] 0 sqliteFresh rfl
  · exact C6_construction_validation.2.2.2.2.1 Nat Nat _ 0
      (PyVal.str "h") (PyVal.str "u") (PyVal.str "") (PyVal.str "d")
      rfl rfl rfl rfl (Or.inr (Or.inr (Or.inl rfl)))
  · exact C6_construction_validation.2.2.2.2.2.2.2.1 Nat Nat _ 0 rfl
  · intro s h
    exact C6_construction_validation.2.2.2.2.2.2.2.2 Nat Nat _ 0 s h

/-- C8: on an open handle, the SQLite executor splits the command on
`;`, strips each piece, discards empty pieces and pieces starting with
`--`, executes exactly the remaining segments in textual order (shown
with the tracing driver: the executed-statement log is extended by
exactly `sqliteCommandsList call`), and returns status `0` when no
native error occurs; every retained segment is non-empty, is not a
comment segment, and comes from the split; and a command containing only
a comment line executes nothing and still returns `0`. -/
theorem C8_sqlite_execute_splitting :
    (∀ (p : PyVal) (tr : List String) (sch : Option Nat) (call : String),
        SQLiteManager.execute_db_call traceDrv
            { db_path := p, conn := Handle.openH, db := tr, schema := sch }
            call =
          Except.ok
            ({ db_path := p, conn := Handle.openH,
               db := tr ++ sqliteCommandsList call,
               schema := Option.some 0 }, 0)) ∧
    (∀ (call : String) (c : String), c ∈ sqliteCommandsList call →
        c ≠ "" ∧ pyStartsWith c "--" = false ∧
        c ∈ (pySplit call ';').map pyStrip) ∧
    (sqliteCommandsList "-- no-op" = [] ∧
      SQLiteManager.execute_db_call traceDrv
          { db_path := PyVal.str "test.db", conn := Handle.openH,
            db := [], schema := Option.none } "-- no-op" =
        Except.ok
          ({ db_path := PyVal.str "test.db", conn := Handle.openH,
             db := [], schema := Option.some 0 }, 0)) := by
  refine ⟨?_, ?_, ?_, ?_⟩
  · intro p tr sch call
    have hrun := sqliteRunCommands_trace (sqliteCommandsList call) tr
    have hsch : sqlSchemaRefresh traceDrv Handle.openH
        (tr ++ sqliteCommandsList call) = Except.ok 0 := rfl
    simp [SQLiteManager.execute_db_call, hrun, hsch]
  · intro call c hc
    simp only [sqliteCommandsList, List.mem_filter, Bool.and_eq_true,
      Bool.not_eq_true', beq_eq_false_iff_ne] at hc
    exact ⟨hc.2.1, hc.2.2, hc.1⟩
  · decide
  · rfl

/-- C8 (witness): evaluated at an explicit two-statement command with a
trailing comment segment. -/
theorem C8_sqlite_execute_splitting_witness :
    ("INSERT INTO t VALUES (1)" ∈ sqliteCommandsList
        "CREATE TABLE t (id INTEGER PRIMARY KEY); INSERT INTO t VALUES (1); -- done") ∧
    ("INSERT INTO t VALUES (1)" ≠ "" ∧
      pyStartsWith "INSERT INTO t VALUES (1)" "--" = false ∧
      "INSERT INTO t VALUES (1)" ∈
        (pySplit
          "CREATE TABLE t (id INTEGER PRIMARY KEY); INSERT INTO t VALUES (1); -- done"
          ';').map pyStrip) ∧
    SQLiteManager.execute_db_call traceDrv
        { db_path := PyVal.str "test.db", conn := Handle.openH, db := [],
          schema := Option.none }
        "CREATE TABLE t (id INTEGER PRIMARY KEY); INSERT INTO t VALUES (1); -- done" =
      Except.ok
        ({ db_path := PyVal.str "test.db", conn := Handle.openH,
           db := ["CREATE TABLE t (id INTEGER PRIMARY KEY)",
                  "INSERT INTO t VALUES (1)"],
           schema := Option.some 0 }, 0) := by
  refine ⟨by decide, ?_, ?_⟩
  · exact C8_sqlite_execute_splitting.2.1
      "CREATE TABLE t (id INTEGER PRIMARY KEY); INSERT INTO t VALUES (1); -- done"
      "INSERT INTO t VALUES (1)" (by decide)
  · have h := C8_sqlite_execute_splitting.1 (PyVal.str "test.db") []
      Option.none
      "CREATE TABLE t (id INTEGER PRIMARY KEY); INSERT INTO t VALUES (1); -- done"
    simpa using h

/-- C9: submitting a document command whose `operation` value is outside
the fixed dispatch set to the status-only executor returns failure
status `1` and leaves the adapter state — in particular the schema
snapshot held before the call — unchanged. -/
theorem C9_mongo_unknown_operation :
    ∀ (MDB MSchema Doc P : Type) (drv : MongoDriver MDB MSchema Doc P)
      (s : MongoState MDB MSchema) (cmd : MongoCommand P),
      s.conn ≠ Handle.unset →
      (∀ op : String, cmd.operation = Option.some op →
        op ∉ mongoOperations) →
      MongoDBManager.execute_db_call drv s cmd = Except.ok (s, 1) ∧
      (MongoDBManager.fetch_db_call drv s cmd =
        Except.ok (s, MongoFetchRet.status 1)) := by
  intro MDB MSchema Doc P drv s cmd hconn hop
  obtain ⟨cfg, conn, dbA, mdb, sch⟩ := s
  have hbody := mongoFetchBody_unknown drv conn mdb cmd hop
  cases conn with
  | unset => exact absurd rfl hconn
  | openH =>
      constructor
      · simp [MongoDBManager.execute_db_call, hbody]
      · simp [MongoDBManager.fetch_db_call, hbody]
  | closedH =>
      constructor
      · simp [MongoDBManager.execute_db_call, hbody]
      · simp [MongoDBManager.fetch_db_call, hbody]

/-- C9 (witness): evaluated at the explicit unrecognised operation
`drop_collection` against a connected adapter. -/
theorem C9_mongo_unknown_operation_witness :
    Handle.openH ≠ Handle.unset ∧
    (∀ op : String, unknownOpCmd.operation = Option.some op →
      op ∉ mongoOperations) ∧
    MongoDBManager.execute_db_call mongoDemoDrv mongoOpen unknownOpCmd =
      Except.ok (mongoOpen, 1) := by
  have hop : ∀ op : String, unknownOpCmd.operation = Option.some op →
      op ∉ mongoOperations := by
    intro op h
    simp only [unknownOpCmd, Option.some.injEq] at h
    subst h
    decide
  exact ⟨by decide, hop,
    (C9_mongo_unknown_operation Nat Nat Nat Nat mongoDemoDrv mongoOpen
      unknownOpCmd (by decide) hop).1⟩

/-- C10: the document adapter's `connect` passes only the configured
host and port to the native client constructor and selects the
configured database name; the stored password plays no role in
establishing the connection (replacing it changes nothing but the stored
field); and a configuration without a `port` key stores the string
`'27017'` — not a number — as the port. -/
theorem C10_mongo_connect_host_port_only :
    (∀ (MDB MSchema : Type) (config : Config) (mdb : MDB),
        cfgHas config "host" = true → cfgHas config "port" = false →
        (MongoDBManager.init config mdb :
            Except PyErr (MongoState MDB MSchema)).map
          (fun s => s.connection_config.port) =
          Except.ok (PyVal.str "27017")) ∧
    (∀ (MDB MSchema Doc P : Type) (drv : MongoDriver MDB MSchema Doc P)
        (s : MongoState MDB MSchema) (pw : PyVal),
        MongoDBManager.connect drv (mongoSetPw pw s) =
          (mongoSetPw pw (MongoDBManager.connect drv s).1,
            (MongoDBManager.connect drv s).2)) ∧
    (∀ (MDB MSchema Doc P : Type) (drv : MongoDriver MDB MSchema Doc P)
        (s : MongoState MDB MSchema),
        drv.clientErr s.connection_config.host s.connection_config.port =
          Option.none →
        ((MongoDBManager.connect drv s).1).dbAttr =
          Option.some s.connection_config.dbname) := by
  refine ⟨?_, ?_, ?_⟩
  · intro MDB MSchema config mdb hhost hport
    simp only [MongoDBManager.init, hhost, Bool.not_true, Bool.false_eq_true,
      if_false, cfgGetD_of_not_has _ hport]
    rfl
  · intro MDB MSchema Doc P drv s pw
    obtain ⟨⟨h0, p0, pw0, d0⟩, conn, dbA, mdb, sch⟩ := s
    simp only [MongoDBManager.connect, mongoSetPw, mongoClientArgs]
    cases hce : drv.clientErr h0 p0 with
    | none =>
        cases hsq : drv.schemaQuery mdb with
        | error e => rfl
        | ok sch2 => rfl
    | some e => rfl
  · intro MDB MSchema Doc P drv s h
    obtain ⟨⟨h0, p0, pw0, d0⟩, conn, dbA, mdb, sch⟩ := s
    simp only at h
    simp only [MongoDBManager.connect, mongoClientArgs, h]
    cases hsq : drv.schemaQuery mdb with
    | error e => rfl
    | ok sch2 => rfl

/-- C10 (witness): evaluated at a configuration containing only a host
key and at the connected demo adapter. -/
theorem C10_mongo_connect_host_port_only_witness :
    cfgHas [("host", PyVal.str "localhost")] "host" = true ∧
    cfgHas [("host", PyVal.str "localhost")] "port" = false ∧
    (MongoDBManager.init [("host", PyVal.str "localhost")] 0 :
        Except PyErr (MongoState Nat Nat)).map
      (fun s => s.connection_config.port) = Except.ok (PyVal.str "27017") ∧
    MongoDBManager.connect mongoDemoDrv
        (mongoSetPw (PyVal.str "hunter2") mongoFresh) =
      (mongoSetPw (PyVal.str "hunter2")
        (MongoDBManager.connect mongoDemoDrv mongoFresh).1,
        (MongoDBManager.connect mongoDemoDrv mongoFresh).2) ∧
    ((MongoDBManager.connect mongoDemoDrv mongoFresh).1).dbAttr =
      Option.some (PyVal.str "mydb") := by
  refine ⟨rfl, rfl, ?_, ?_, ?_⟩
  · exact C10_mongo_connect_host_port_only.1 Nat Nat _ 0 rfl rfl
  · exact C10_mongo_connect_host_port_only.2.1 Nat Nat Nat Nat mongoDemoDrv
      mongoFresh (PyVal.str "hunter2")
  · exact C10_mongo_connect_host_port_only.2.2 Nat Nat Nat Nat mongoDemoDrv
      mongoFresh rfl
